import Mathlib

/-
Verification of the Jellycord media-status bot core.

This file gives a shallow embedding of the session/library adapters
(src/api/clients/emby_client.py, src/api/clients/jellyfin_client.py),
the channel-name rendering and reconciliation effects of the Discord bot
(src/modules/bot.py), and the scheduler configuration
(src/modules/config.py), together with theorems settling the frozen
claims about them.

Conventions of the embedding:
  - Python dict lookups with a default are modelled by Option fields:
    "none" is an absent (or falsy-empty) key, and the default is applied
    at the point of use, exactly where the source applies it.
  - A field whose retrieved value may be a JSON null where an integer is
    expected is modelled as Option (Option Int): the outer layer is key
    presence, the inner layer distinguishes null from an integer.  A null
    makes the Python "{:02d}" format raise, which the per-record
    try/except of parse_session_info converts into a skipped record.
  - Fallible remote calls are passed in as values (an Except for the
    transport result, an oracle function for count queries).
  - Numeric formatting of "f-strings" is modelled with exact rational
    arithmetic: "{x:.1f}" rounds to the nearest tenth, ties to even,
    which is IEEE behaviour on the mathematically exact value.
  - String helpers (lower, replace, split, strip, substring test) are
    re-implemented over lists of characters with Python semantics so
    that every definition is kernel-computable.
-/

/-! ## Python-style string helpers -/

/-- Characters Python's str.split() and str.strip() treat as whitespace. -/
def pyIsSpace (c : Char) : Bool :=
  c = ' ' || c = '\t' || c = '\n' || c = '\r' || c = '\x0b' || c = '\x0c'

/-- Lower-casing as Python's str.lower() (ASCII range; library names here are ASCII). -/
def pyLower (s : String) : String := ⟨s.data.map Char.toLower⟩

/-- Substring test on character lists: does needle occur contiguously in hay?
Models Python's "needle in hay". -/
def subList (needle : List Char) : List Char → Bool
  | [] => needle.isEmpty
  | c :: rest => needle.isPrefixOf (c :: rest) || subList needle rest

/-- Python's "needle in hay" on strings. -/
def pyContains (hay needle : String) : Bool := subList needle.data hay.data

/-- One pass of left-to-right non-overlapping replacement, fuelled to stay
structural; the fuel is the length of the scanned list, enough because every
step consumes at least one character (patterns used are nonempty). -/
def replaceAux (pat rep : List Char) : Nat → List Char → List Char
  | _, [] => []
  | 0, l => l
  | fuel + 1, c :: rest =>
    if pat.isPrefixOf (c :: rest) then
      rep ++ replaceAux pat rep fuel ((c :: rest).drop pat.length)
    else
      c :: replaceAux pat rep fuel rest

/-- Python's str.replace (all non-overlapping occurrences, left to right). -/
def pyReplace (s pat rep : String) : String :=
  ⟨replaceAux pat.data rep.data s.data.length s.data⟩

/-- Split into maximal runs of non-whitespace, as Python's str.split(). -/
def wordsAux : List Char → List Char → List (List Char)
  | [], acc => if acc.isEmpty then [] else [acc.reverse]
  | c :: rest, acc =>
    if pyIsSpace c then
      if acc.isEmpty then wordsAux rest [] else acc.reverse :: wordsAux rest []
    else
      wordsAux rest (c :: acc)

/-- Python's " ".join(s.split()): collapse whitespace runs to single spaces
and drop leading/trailing whitespace. -/
def normSpaces (s : String) : String :=
  ⟨List.intercalate [' '] (wordsAux s.data [])⟩

/-- Python's s[:100], by code points. -/
def truncate100 (s : String) : String := ⟨s.data.take 100⟩

/-! ## Python-style numeric formatting -/

/-- Round a/b to the nearest integer, ties to even (the rounding of
"{:.1f}" applied to the exact rational value). -/
def roundHalfEven (a b : Nat) : Nat :=
  let q := a / b
  let r := a % b
  if 2 * r < b then q
  else if b < 2 * r then q + 1
  else if q % 2 = 0 then q else q + 1

/-- Python's f"{n/d:.1f}" on the exact value of n/d: one decimal digit,
round half to even. -/
def fmtOneDecimal (n d : Nat) : String :=
  let tenths := roundHalfEven (10 * n) d
  toString (tenths / 10) ++ "." ++ toString (tenths % 10)

/-- Python's f"{n:02d}" for a possibly negative integer (width 2 counts the sign). -/
def pad2Int (n : Int) : String :=
  if 0 ≤ n ∧ n < 10 then "0" ++ toString n else toString n

/-- str(datetime.timedelta(seconds = s)) for a nonnegative whole number of
seconds: "H:MM:SS", prefixed with a day count when s reaches one day. -/
def timedeltaStr (s : Nat) : String :=
  let days := s / 86400
  let rem := s % 86400
  let h := rem / 3600
  let m := (rem % 3600) / 60
  let sec := rem % 60
  let pad := fun (n : Nat) => if n < 10 then "0" ++ toString n else toString n
  let hms := toString h ++ ":" ++ pad m ++ ":" ++ pad sec
  if days = 0 then hms
  else if days = 1 then "1 day, " ++ hms
  else toString days ++ " days, " ++ hms

/-! ## Upstream session records

The raw JSON session shape shared by the Emby and Jellyfin endpoints,
restricted to the keys the two clients read. -/

/-- The NowPlayingItem sub-record of a session. -/
structure NowPlaying where
  typ : Option String := none
  name : Option String := none
  seriesName : Option String := none
  parentIndexNumber : Option (Option Int) := none
  indexNumber : Option (Option Int) := none
  runTimeTicks : Nat := 0
  width : Nat := 0
  height : Nat := 0
  bitrate : Nat := 0
deriving DecidableEq

/-- The PlayState sub-record of a session. -/
structure PlayState where
  positionTicks : Nat := 0
  playStateField : Option String := none
deriving DecidableEq

/-- The TranscodingInfo sub-record of a session. -/
structure TranscodingInfo where
  videoCodec : Option String := none
  audioCodec : Option String := none
  width : Nat := 0
  height : Nat := 0
  bitrate : Nat := 0
deriving DecidableEq

/-- One raw upstream session record.  An Option sub-record that is "none"
stands for an absent key (or a present-but-empty object, which Python
truthiness treats the same way at every use site below). -/
structure Session where
  nowPlaying : Option NowPlaying := none
  playState : PlayState := {}
  transcoding : Option TranscodingInfo := none
  userName : Option String := none
  client : Option String := none
  deviceName : Option String := none
  remoteEndPoint : Option String := none
deriving DecidableEq

/-- The normalized stream record built by the Emby client
(dataclass StreamInfo in src/api/clients/emby_client.py). -/
structure StreamInfo where
  user : String
  media_type : String
  media_title : String
  series_name : String
  product : String
  player : String
  quality_profile : String
  progress : String
  eta : Option String
  stream_state : String
  transcoding : Bool
deriving DecidableEq

/-! ## Emby client: parse_session_info and get_sessions -/

/-- EmbyClient.parse_session_info.  Returns none when the Python body
raises and the surrounding try/except returns None: with this typed
record model that happens exactly when an episode's season or episode
number is a JSON null, which makes the "S{:02d}E{:02d}" format raise. -/
def parse_session_info (s : Session) : Option StreamInfo :=
  let np := s.nowPlaying.getD {}
  let seriesName := (np.seriesName.getD "")
  let mediaType := pyLower (np.typ.getD "")
  let title? : Option String :=
    if mediaType = "episode" then
      match np.parentIndexNumber.getD (some 0), np.indexNumber.getD (some 0) with
      | some sn, some en =>
        some (seriesName ++ " - S" ++ pad2Int sn ++ "E" ++ pad2Int en ++ " - "
          ++ np.name.getD "unknown")
      | _, _ => none
    else
      some (np.name.getD "Unknown")
  match title? with
  | none => none
  | some mediaTitle =>
    let p := s.playState.positionTicks
    let r := np.runTimeTicks
    let progress :=
      if p ≠ 0 ∧ r ≠ 0 then
        timedeltaStr (p / 10000000) ++ "/" ++ timedeltaStr (r / 10000000)
      else "Unknown"
    let eta : Option String :=
      if p ≠ 0 ∧ r ≠ 0 then
        if p < r then some (timedeltaStr ((r - p) / 10000000)) else none
      else none
    let quality :=
      match s.transcoding with
      | some t =>
        if t.width ≠ 0 ∧ t.height ≠ 0 then
          toString t.width ++ "x" ++ toString t.height
            ++ (if t.bitrate ≠ 0 then " " ++ fmtOneDecimal t.bitrate 1000 ++ "Mbps" else "")
            ++ (if t.videoCodec.getD "" ≠ "" then " (" ++ t.videoCodec.getD "" ++ ")" else "")
        else "Unknown"
      | none =>
        if np.width ≠ 0 ∧ np.height ≠ 0 then
          toString np.width ++ "x" ++ toString np.height
            ++ (if np.bitrate ≠ 0 then " " ++ fmtOneDecimal np.bitrate 1000 ++ "Mbps" else "")
            ++ " (direct)"
        else "Direct"
    some {
      user := s.userName.getD "Unknown",
      media_type := mediaType,
      media_title := mediaTitle,
      series_name := seriesName,
      product := s.client.getD "Unknown",
      player := s.deviceName.getD "Unknown",
      quality_profile := quality,
      progress := progress,
      eta := eta,
      stream_state := pyLower (s.playState.playStateField.getD "playing"),
      transcoding := s.transcoding.isSome }

/-- The activity filter of EmbyClient.get_sessions: the session has a
NowPlayingItem and a nonzero playback position. -/
def embyActive (s : Session) : Bool :=
  s.nowPlaying.isSome && decide (0 < s.playState.positionTicks)

/-- EmbyClient.get_sessions.  The transport result is passed in; the
method's own try/except turns any transport failure into an empty list
(it never re-raises), and per-session parse failures are skipped. -/
def emby_get_sessions (resp : Except Unit (List Session)) :
    Except Unit (List StreamInfo) :=
  match resp with
  | .error _ => .ok []
  | .ok sessions =>
    .ok (sessions.filterMap fun s =>
      if embyActive s then parse_session_info s else none)

/-! ## Emby client: get_all_stream_info -/

/-- Aggregate statistics (dataclass ServerStats in src/modules/media_server.py,
the one emby_client.py imports and never redefines; its stream-count
field is named total_streams). -/
structure ServerStats where
  total_streams : Nat
  transcoding_streams : Nat
  total_bandwidth : Nat
  lan_bandwidth : Nat
  remote_bandwidth : Nat
  streams : List StreamInfo
deriving DecidableEq

/-- The uncaught Python exceptions the client bodies can raise. -/
inductive PyError where
  | typeError
  | attributeError
deriving DecidableEq

/-- EmbyClient.get_all_stream_info, over the parsed StreamInfo list its
own get_sessions returns.  The body can never produce a ServerStats:
with at least one session present, the bandwidth loop's
session.get(...) raises AttributeError on the first element (the
StreamInfo dataclass has no .get method); with no sessions the loop is
skipped, but the final ServerStats(current_streams=...) construction
raises TypeError, because the imported dataclass's field is named
total_streams, not current_streams.  Every invocation therefore
raises, and no ServerStats value is ever returned. -/
def get_all_stream_info (sessions : List StreamInfo) :
    Except PyError ServerStats :=
  match sessions with
  | _ :: _ => .error .attributeError
  | [] => .error .typeError

/-! ## Jellyfin client: get_sessions -/

/-- JellyfinClient.get_sessions.  The transport result is passed in; _get
swallows every connection failure and returns an empty object, which the
isinstance check turns into a returned empty list.  In the session loop
the only filter is the presence of NowPlayingItem — but for the first
session that passes it, the StreamInfo construction raises TypeError,
uncaught, because it passes keywords (username, client, device_name,
title, duration, bandwidth, ...) that the StreamInfo dataclass imported
from the Emby client does not declare.  A successful return is
therefore always the empty list: either the response is not a list, or
no session has a NowPlayingItem. -/
def jellyfin_get_sessions (resp : Except Unit (List Session)) :
    Except PyError (List StreamInfo) :=
  match resp with
  | .error _ => .ok []
  | .ok data =>
    if data.any fun s => s.nowPlaying.isSome then .error .typeError
    else .ok []

/-! ## Library statistics (both clients) -/

/-- One entry of the media-folder listing, restricted to the keys read. -/
structure LibraryRec where
  id : String := ""
  name : String := ""
  collectionType : Option String := none
deriving DecidableEq

/-- A per-library summary as produced by get_library_stats of either
client (Emby emits capitalised dict keys, Jellyfin lower-case ones; the
fields are the same). -/
structure LibStats where
  name : String
  typ : String
  count : Nat
  is4k : Bool
  isKids : Bool
  isAnime : Bool
deriving DecidableEq

/-- An /Items count query as built by EmbyClient.get_library_stats.
fieldsWidth records whether the query carries the Fields=Width parameter,
which the retry query drops. -/
structure EmbyQuery where
  parentId : String
  minWidth : Option Nat
  maxWidth : Option Nat
  includeTypes : String
  fieldsWidth : Bool
deriving DecidableEq

/-- The body of EmbyClient.get_library_stats for one library; the count
oracle stands for the /Items round trips.  none means the library is
skipped: a collections library, a collection type other than
movies/tvshows/music, or an absent CollectionType key (whose KeyError the
per-library except swallows). -/
def emby_library_stat (count : EmbyQuery → Nat) (lib : LibraryRec) : Option LibStats :=
  if pyLower lib.name = "collections" then none
  else
    let is4k := pyContains (pyLower lib.name) "4k"
    let isKids := pyContains (pyLower lib.name) "kids"
    let isAnime := pyContains (pyLower lib.name) "anime"
    let minW : Option Nat := if is4k then some 3840 else none
    let maxW : Option Nat :=
      if is4k then none else if isKids || isAnime then none else some 3839
    match lib.collectionType with
    | none => none
    | some ct =>
      let types? : Option String :=
        if ct = "movies" then some "Movie"
        else if ct = "tvshows" then some "Series"
        else if ct = "music" then some "Audio,MusicAlbum"
        else none
      match types? with
      | none => none
      | some tys =>
        let c := count
          { parentId := lib.id, minWidth := minW, maxWidth := maxW,
            includeTypes := tys, fieldsWidth := true }
        let c :=
          if c = 0 ∧ ct = "tvshows" then
            count { parentId := lib.id, minWidth := none, maxWidth := none,
                    includeTypes := "Series", fieldsWidth := false }
          else c
        some { name := lib.name, typ := ct, count := c,
               is4k := is4k, isKids := isKids, isAnime := isAnime }

/-- EmbyClient.get_library_stats over a fetched library listing. -/
def emby_get_library_stats (count : EmbyQuery → Nat) (libs : List LibraryRec) :
    List LibStats :=
  libs.filterMap (emby_library_stat count)

/-- The /Items/Counts response shape the Jellyfin client reads. -/
structure JellyCounts where
  movieCount : Nat := 0
  seriesCount : Nat := 0
  songCount : Nat := 0
deriving DecidableEq

/-- The body of JellyfinClient.get_library_stats for one library; the
counts oracle stands for the /Items/Counts round trip keyed by ParentId. -/
def jellyfin_library_stat (counts : String → JellyCounts) (lib : LibraryRec) :
    Option LibStats :=
  if lib.id = "" ∨ lib.name = "" then none
  else if pyLower lib.name = "collections" then none
  else
    let is4k := pyContains (pyLower lib.name) "4k"
    let isKids := pyContains (pyLower lib.name) "kids"
    let isAnime := pyContains (pyLower lib.name) "anime"
    let ct := pyLower (lib.collectionType.getD "")
    let c := counts lib.id
    if ct = "movies" then
      some { name := lib.name, typ := ct, count := c.movieCount,
             is4k := is4k, isKids := isKids, isAnime := isAnime }
    else if ct = "tvshows" then
      some { name := lib.name, typ := ct, count := c.seriesCount,
             is4k := is4k, isKids := isKids, isAnime := isAnime }
    else if ct = "music" then
      some { name := lib.name, typ := ct, count := c.songCount,
             is4k := is4k, isKids := isKids, isAnime := isAnime }
    else none

/-- JellyfinClient.get_library_stats; returns nothing when no user id is
held. -/
def jellyfin_get_library_stats (hasUserId : Bool) (counts : String → JellyCounts)
    (libs : List LibraryRec) : List LibStats :=
  if hasUserId then libs.filterMap (jellyfin_library_stat counts) else []

/-! ## Bot: number formatting and library channel naming (src/modules/bot.py) -/

/-- MediaBot.format_number: K/M magnitude abbreviation. -/
def format_number (num : Nat) : String :=
  if num ≥ 1000000 then fmtOneDecimal num 1000000 ++ "M"
  else if num ≥ 1000 then fmtOneDecimal num 1000 ++ "K"
  else toString num

/-- Modelled from the spec (refinement target only): the claimed rendering of
format_number, stated with the claim's bracketing — bare digits below 1,000,
divide-by-1,000 rounded to one decimal with a K suffix below 1,000,000, and
divide-by-1,000,000 rounded to one decimal with an M suffix above. -/
def spec_format_number (num : Nat) : String :=
  if num < 1000 then toString num
  else if num < 1000000 then fmtOneDecimal num 1000 ++ "K"
  else fmtOneDecimal num 1000000 ++ "M"

/-- The emoji / prefix token chosen by update_library_stats from the
library type and flags. -/
def libraryEmoji (l : LibStats) : String :=
  if l.typ = "movies" then
    if l.is4k then "🎬 4K" else "🎬"
  else if l.typ = "tvshows" then
    if l.isKids then "🏠"
    else if l.isAnime then "👾"
    else if l.is4k then "📺 4K"
    else "📺"
  else if l.typ = "music" then "🎵"
  else "📚"

/-- The display name of update_library_stats: for a 4K library the literal
"4K"/"4k" markers are stripped and whitespace is re-normalised. -/
def displayName (l : LibStats) : String :=
  if l.is4k then normSpaces (pyReplace (pyReplace l.name "4K" "") "4k" "")
  else l.name

/-- The untruncated channel name f"{emoji} {display_name}: {format_number(count)}"
(grouped to the right so the count is the final factor). -/
def rawChannelName (l : LibStats) : String :=
  libraryEmoji l ++ (" " ++ (displayName l ++ (": " ++ format_number l.count)))

/-- The channel name update_library_stats registers and matches against:
truncated to Discord's 100-character limit. -/
def channelName (l : LibStats) : String := truncate100 (rawChannelName l)

/-! ## Bot: reconciliation-cycle operations

One poll cycle runs update_status, update_library_stats and
update_recently_added in sequence.  The chat-directory mutations each of
them issues are made explicit below; the observed channel list is the
snapshot of the target category at the start of the cycle.  (The
converged states considered by the idempotence claim have the two text
channels already in place, so ensure_channel_exists issues nothing and is
not modelled.) -/

/-- A mutation issued against the chat directory. -/
inductive ChatOp where
  | createVoiceChannel (name : String)
  | deleteVoiceChannel (name : String)
  | sendStatusMessage
  | editStatusMessage
  | sendRecentMessage
  | editRecentMessage
deriving DecidableEq

/-- The message operations of MediaBot.update_status: with a held handle
the status message is edited unconditionally; without one the bot's last
message is searched in recent history and adopted silently, and only if
none is found is a new message sent. -/
def update_status_ops (handleHeld foundInHistory : Bool) : List ChatOp :=
  if handleHeld then [ChatOp.editStatusMessage]
  else if foundInHistory then []
  else [ChatOp.sendStatusMessage]

/-- The channel operations of MediaBot.update_library_stats: one create per
desired channel name missing from the observed category, then one delete
per observed voice channel whose name is not among the desired names. -/
def update_library_stats_ops (stats : List LibStats) (observed : List String) :
    List ChatOp :=
  (stats.filterMap fun l =>
    if channelName l ∈ observed then none
    else some (ChatOp.createVoiceChannel (channelName l)))
  ++ (observed.filterMap fun c =>
    if c ∈ stats.map channelName then none
    else some (ChatOp.deleteVoiceChannel c))

/-- The message operations of MediaBot.update_recently_added: nothing when
there are no recent items; otherwise edit the held message, or send a new
one when no handle is held (history is not searched here). -/
def update_recently_added_ops (numItems : Nat) (recentHandleHeld : Bool) :
    List ChatOp :=
  if numItems = 0 then []
  else if recentHandleHeld then [ChatOp.editRecentMessage]
  else [ChatOp.sendRecentMessage]

/-- All chat-directory operations of one reconciliation cycle. -/
def reconcile_cycle_ops (statusHeld foundInHistory : Bool) (stats : List LibStats)
    (observed : List String) (numItems : Nat) (recentHeld : Bool) : List ChatOp :=
  update_status_ops statusHeld foundInHistory
    ++ update_library_stats_ops stats observed
    ++ update_recently_added_ops numItems recentHeld

/-! ## Scheduler configuration (src/modules/config.py, src/modules/bot.py) -/

/-- GeneralConfig: the steady-state refresh interval, default 5 seconds. -/
structure GeneralConfig where
  refresh_seconds : Nat := 5
deriving DecidableEq

/-- The sleep chosen at the end of a cycle by _run_status_updates: the
configured refresh interval after a normal cycle, a fixed 5 seconds after
a cycle-level exception. -/
def cycle_sleep_seconds (g : GeneralConfig) (errored : Bool) : Nat :=
  if errored then 5 else g.refresh_seconds

/-! ## Concrete sample inputs used by witnesses and counterexamples -/

/-- A well-formed movie session: 600 s played of a 1200 s runtime. -/
def goodSession : Session :=
  { nowPlaying :=
      some { typ := some "Movie", name := some "Film A", runTimeTicks := 12000000000 },
    playState := { positionTicks := 6000000000 } }

/-- An active but malformed episode session: its season number is a JSON
null, so the episode title format raises in parse_session_info. -/
def malformedSession : Session :=
  { nowPlaying :=
      some { typ := some "Episode", parentIndexNumber := some none },
    playState := { positionTicks := 5 } }

/-- A session whose position equals its runtime (both nonzero). -/
def tieSession : Session :=
  { nowPlaying := some { runTimeTicks := 10000000 },
    playState := { positionTicks := 10000000 } }

/-- A show library whose name carries both flag substrings. -/
def kidsAnimeLib : LibraryRec :=
  { id := "L1", name := "Kids Anime", collectionType := some "tvshows" }

/-- A plain movie library. -/
def filmsLib : LibraryRec :=
  { id := "L2", name := "Films", collectionType := some "movies" }

/-- A collections library (to be excluded). -/
def collectionsLib : LibraryRec :=
  { id := "L3", name := "Collections", collectionType := some "movies" }

/-- A constant Emby count oracle. -/
def demoCount : EmbyQuery → Nat := fun _ => 7

/-- A constant Jellyfin counts oracle. -/
def demoJellyCounts : String → JellyCounts :=
  fun _ => { movieCount := 3, seriesCount := 4, songCount := 5 }

/-- The summary the Emby client produces for filmsLib under demoCount. -/
def filmsStat : LibStats :=
  { name := "Films", typ := "movies", count := 7,
    is4k := false, isKids := false, isAnime := false }

/-- The summary the Jellyfin client produces for filmsLib under demoJellyCounts. -/
def jellyFilmsStat : LibStats :=
  { name := "Films", typ := "movies", count := 3,
    is4k := false, isKids := false, isAnime := false }

/-- A movie library summary with one item. -/
def moviesLibOne : LibStats :=
  { name := "Movies", typ := "movies", count := 1,
    is4k := false, isKids := false, isAnime := false }

/-- The same summary with two items. -/
def moviesLibTwo : LibStats := { moviesLibOne with count := 2 }

/-- A music library summary with no flags. -/
def musicPlainLib : LibStats :=
  { name := "Tunes", typ := "music", count := 42,
    is4k := false, isKids := false, isAnime := false }

/-- The same music library with the isKids flag set. -/
def musicKidsLib : LibStats := { musicPlainLib with isKids := true }

/-- A show library summary used by the reconciliation witness. -/
def demoLib : LibStats :=
  { name := "Shows", typ := "tvshows", count := 120,
    is4k := false, isKids := false, isAnime := false }

/-! ## Helper lemmas -/

theorem string_data_inj {a b : String} (h : a.data = b.data) : a = b := by
  cases a
  cases b
  exact congrArg String.mk h

theorem str_append_left_cancel {s a b : String} (h : s ++ a = s ++ b) : a = b := by
  have hd : s.data ++ a.data = s.data ++ b.data := by
    simpa [String.data_append] using congrArg String.data h
  exact string_data_inj (List.append_cancel_left hd)

theorem str_append_right_cancel {a b s : String} (h : a ++ s = b ++ s) : a = b := by
  have hd : a.data ++ s.data = b.data ++ s.data := by
    simpa [String.data_append] using congrArg String.data h
  exact string_data_inj (List.append_cancel_right hd)

theorem truncate100_eq_self {s : String} (h : s.length ≤ 100) : truncate100 s = s := by
  unfold truncate100
  have hl : s.data.take 100 = s.data := List.take_of_length_le h
  rw [hl]

theorem libraryEmoji_set_count (l : LibStats) (c : Nat) :
    libraryEmoji { l with count := c } = libraryEmoji l := rfl

theorem displayName_set_count (l : LibStats) (c : Nat) :
    displayName { l with count := c } = displayName l := rfl

theorem rawChannelName_set_count (l : LibStats) (c : Nat) :
    rawChannelName { l with count := c } =
      libraryEmoji l ++ (" " ++ (displayName l ++ (": " ++ format_number c))) := rfl

theorem rawChannelName_set_typ (l : LibStats) (k : String) :
    rawChannelName { l with typ := k } =
      libraryEmoji { l with typ := k }
        ++ (" " ++ (displayName l ++ (": " ++ format_number l.count))) := rfl

theorem emby_library_stat_spec (count : EmbyQuery → Nat) (lib : LibraryRec)
    (s : LibStats) (h : emby_library_stat count lib = some s) :
    s.name = lib.name ∧
    s.is4k = pyContains (pyLower lib.name) "4k" ∧
    s.isKids = pyContains (pyLower lib.name) "kids" ∧
    s.isAnime = pyContains (pyLower lib.name) "anime" ∧
    pyLower lib.name ≠ "collections" := by
  unfold emby_library_stat at h
  split_ifs at h with hcol
  rcases hct : lib.collectionType with _ | ct
  · rw [hct] at h
    simp at h
  · rw [hct] at h
    dsimp only at h
    split_ifs at h with h1 h2 h3 <;> dsimp only at h <;>
      (have hs := Option.some.inj h
       subst hs
       exact ⟨rfl, rfl, rfl, rfl, hcol⟩)

theorem jellyfin_library_stat_spec (counts : String → JellyCounts) (lib : LibraryRec)
    (s : LibStats) (h : jellyfin_library_stat counts lib = some s) :
    s.name = lib.name ∧
    s.is4k = pyContains (pyLower lib.name) "4k" ∧
    s.isKids = pyContains (pyLower lib.name) "kids" ∧
    s.isAnime = pyContains (pyLower lib.name) "anime" ∧
    pyLower lib.name ≠ "collections" := by
  unfold jellyfin_library_stat at h
  split_ifs at h with hempty hcol
  dsimp only at h
  split_ifs at h with h1 h2 h3
  all_goals
    (have hs := Option.some.inj h
     subst hs
     exact ⟨rfl, rfl, rfl, rfl, hcol⟩)

/-- C9: format_number renders the bare digits below 1,000, the count
divided by 1,000 rounded to one decimal with a K suffix below 1,000,000,
and the count divided by 1,000,000 rounded to one decimal with an M
suffix from 1,000,000 on — exactly the rendering spec_format_number
states with the claim's bracketing. -/
theorem C9_format_number_rendering :
    ∀ n : Nat, format_number n = spec_format_number n := by
  intro n
  unfold format_number spec_format_number
  split_ifs <;> first | rfl | omega

/-- C2: the claimed conservation invariants are the evident intent of
get_all_stream_info's arithmetic, but the function can never return a
ServerStats at all — with no sessions the ServerStats construction
itself raises TypeError over the current_streams keyword, and with any
session present the bandwidth loop first raises AttributeError, so
every invocation raises and the quantified claim is unobservable. -/
theorem C2_get_all_stream_info_always_raises :
    get_all_stream_info [] = Except.error PyError.typeError ∧
    (∀ (s : StreamInfo) (rest : List StreamInfo),
      get_all_stream_info (s :: rest) = Except.error PyError.attributeError) :=
  ⟨rfl, fun _ _ => rfl⟩

/-- C8 counterexample: with the default configuration (refresh interval
5 seconds) the fixed post-exception delay is not strictly shorter than
the steady-state interval — both are 5 seconds. -/
theorem C8_counterexample :
    ¬ (cycle_sleep_seconds { refresh_seconds := 5 } true
        < cycle_sleep_seconds { refresh_seconds := 5 } false) := by
  decide

/-- C8 (amended): the post-exception delay is the fixed constant 5
seconds, independent of configuration; it is strictly shorter than the
configured refresh interval exactly when refresh_seconds exceeds 5, and
with the default configuration the two sleeps are equal. -/
theorem C8_error_delay_vs_refresh :
    (∀ g : GeneralConfig, cycle_sleep_seconds g true = 5) ∧
    (∀ g : GeneralConfig,
      (cycle_sleep_seconds g true < cycle_sleep_seconds g false ↔
        5 < g.refresh_seconds)) ∧
    cycle_sleep_seconds {} true = cycle_sleep_seconds {} false := by
  refine ⟨fun g => rfl, fun g => ?_, rfl⟩
  simp [cycle_sleep_seconds]

/-- C10: for both adapters, no library whose name equals "collections"
case-insensitively contributes an entry to the returned library
statistics, regardless of its collection type or counts. -/
theorem C10_collections_excluded :
    (∀ (count : EmbyQuery → Nat) (libs : List LibraryRec) (s : LibStats),
      s ∈ emby_get_library_stats count libs → pyLower s.name ≠ "collections") ∧
    (∀ (hasUserId : Bool) (counts : String → JellyCounts) (libs : List LibraryRec)
      (s : LibStats),
      s ∈ jellyfin_get_library_stats hasUserId counts libs →
        pyLower s.name ≠ "collections") := by
  constructor
  · intro count libs s hs
    obtain ⟨lib, _, hlib⟩ := List.mem_filterMap.mp hs
    obtain ⟨hname, _, _, _, hcol⟩ := emby_library_stat_spec count lib s hlib
    rw [hname]
    exact hcol
  · intro hasUserId counts libs s hs
    unfold jellyfin_get_library_stats at hs
    rcases hasUserId with _ | _
    · simp at hs
    · rw [if_pos rfl] at hs
      obtain ⟨lib, _, hlib⟩ := List.mem_filterMap.mp hs
      obtain ⟨hname, _, _, _, hcol⟩ := jellyfin_library_stat_spec counts lib s hlib
      rw [hname]
      exact hcol

/-- C10 witness: in a listing holding a "Collections" library and a
"Films" movie library, the Emby adapter reports exactly the Films
summary and the Jellyfin adapter likewise; the reported summary is not a
collections one. -/
theorem C10_collections_excluded_witness :
    filmsStat ∈ emby_get_library_stats demoCount [collectionsLib, filmsLib] ∧
    pyLower filmsStat.name ≠ "collections" ∧
    jellyFilmsStat ∈ jellyfin_get_library_stats true demoJellyCounts
      [collectionsLib, filmsLib] ∧
    pyLower jellyFilmsStat.name ≠ "collections" :=
  ⟨by decide,
   C10_collections_excluded.1 demoCount [collectionsLib, filmsLib] filmsStat (by decide),
   by decide,
   C10_collections_excluded.2 true demoJellyCounts [collectionsLib, filmsLib]
     jellyFilmsStat (by decide)⟩

/-- C7 counterexample: a show library named "Kids Anime" produces a
summary with both isKids and isAnime set, so the two flags are not
mutually exclusive. -/
theorem C7_counterexample :
    ((emby_get_library_stats (fun _ => 5) [kidsAnimeLib]).map
      fun s => (s.isKids, s.isAnime)) = [(true, true)] := by
  decide

/-- C7 (amended): in every summary either adapter constructs, each of
the three flags is an independent case-insensitive substring test of the
summary's own library name ("4k", "kids", "anime"); isKids and isAnime
are therefore both set when the name contains both substrings, and are
not mutually exclusive in general. -/
theorem C7_flags_are_substring_tests :
    (∀ (count : EmbyQuery → Nat) (libs : List LibraryRec) (s : LibStats),
      s ∈ emby_get_library_stats count libs →
        s.is4k = pyContains (pyLower s.name) "4k" ∧
        s.isKids = pyContains (pyLower s.name) "kids" ∧
        s.isAnime = pyContains (pyLower s.name) "anime") ∧
    (∀ (hasUserId : Bool) (counts : String → JellyCounts) (libs : List LibraryRec)
      (s : LibStats),
      s ∈ jellyfin_get_library_stats hasUserId counts libs →
        s.is4k = pyContains (pyLower s.name) "4k" ∧
        s.isKids = pyContains (pyLower s.name) "kids" ∧
        s.isAnime = pyContains (pyLower s.name) "anime") := by
  constructor
  · intro count libs s hs
    obtain ⟨lib, _, hlib⟩ := List.mem_filterMap.mp hs
    obtain ⟨hname, h4k, hkids, hanime, _⟩ := emby_library_stat_spec count lib s hlib
    rw [hname]
    exact ⟨h4k, hkids, hanime⟩
  · intro hasUserId counts libs s hs
    unfold jellyfin_get_library_stats at hs
    rcases hasUserId with _ | _
    · simp at hs
    · rw [if_pos rfl] at hs
      obtain ⟨lib, _, hlib⟩ := List.mem_filterMap.mp hs
      obtain ⟨hname, h4k, hkids, hanime, _⟩ := jellyfin_library_stat_spec counts lib s hlib
      rw [hname]
      exact ⟨h4k, hkids, hanime⟩

/-- C7 witness: the "Kids Anime" show summary is produced by the Emby
adapter and its flags are exactly the substring tests on its name — with
both isKids and isAnime true and is4k false. -/
theorem C7_flags_are_substring_tests_witness :
    (∃ s, s ∈ emby_get_library_stats (fun _ => 5) [kidsAnimeLib] ∧
      s.is4k = pyContains (pyLower s.name) "4k" ∧
      s.isKids = pyContains (pyLower s.name) "kids" ∧
      s.isAnime = pyContains (pyLower s.name) "anime" ∧
      s.isKids = true ∧ s.isAnime = true ∧ s.is4k = false) := by
  refine ⟨{ name := "Kids Anime", typ := "tvshows", count := 5,
            is4k := false, isKids := true, isAnime := true }, by decide, ?_⟩
  have h := C7_flags_are_substring_tests.1 (fun _ => 5) [kidsAnimeLib]
    { name := "Kids Anime", typ := "tvshows", count := 5,
      is4k := false, isKids := true, isAnime := true } (by decide)
  exact ⟨h.1, h.2.1, h.2.2, rfl, rfl, rfl⟩

/-- C3 counterexample: when the server cannot be reached at all (the
transport result is an error), EmbyClient.get_sessions returns a normal
empty result to the caller instead of failing — no error propagates. -/
theorem C3_counterexample :
    emby_get_sessions (Except.error ()) = Except.ok [] ∧
    emby_get_sessions (Except.error ()) ≠ Except.error () := by
  constructor
  · rfl
  · intro h
    rw [show emby_get_sessions (Except.error ()) = Except.ok [] from rfl] at h
    exact Except.noConfusion h

/-- C3 (amended): total transport failure is swallowed by both adapters,
which return an empty session list to the caller rather than propagating
a retryable error; in the Emby adapter a single malformed session record
never causes the call to fail — the record is skipped by the per-record
catch and the remaining sessions are returned unchanged. -/
theorem C3_transport_swallowed_and_record_skipped :
    emby_get_sessions (Except.error ()) = Except.ok [] ∧
    jellyfin_get_sessions (Except.error ()) = Except.ok [] ∧
    (∀ (l1 l2 : List Session) (m : Session),
      embyActive m = true → parse_session_info m = none →
      emby_get_sessions (Except.ok (l1 ++ m :: l2))
        = emby_get_sessions (Except.ok (l1 ++ l2))) := by
  refine ⟨rfl, rfl, ?_⟩
  intro l1 l2 m hact hparse
  unfold emby_get_sessions
  simp only [List.filterMap_append, List.filterMap_cons, hact, if_true, hparse]

/-- C3 witness: a concrete malformed-but-active episode record (season
number null) is skipped and the good session around it survives. -/
theorem C3_transport_swallowed_and_record_skipped_witness :
    embyActive malformedSession = true ∧
    parse_session_info malformedSession = none ∧
    emby_get_sessions (Except.ok [goodSession, malformedSession])
      = emby_get_sessions (Except.ok [goodSession]) :=
  ⟨by decide, by decide,
   C3_transport_swallowed_and_record_skipped.2.2 [goodSession] [] malformedSession
     (by decide) (by decide)⟩

/-- Whether a single fetched Emby session contributes an entry to the
returned session list. -/
def emby_session_included (s : Session) : Bool :=
  match emby_get_sessions (Except.ok [s]) with
  | .ok l => !l.isEmpty
  | .error _ => false

/-- C5 counterexample: a Jellyfin session with a currently-playing item
and a nonzero playback position is not included in any returned session
list — the adapter's StreamInfo construction raises instead, so the
whole call fails rather than returning a list containing it. -/
theorem C5_counterexample :
    goodSession.nowPlaying.isSome = true ∧
    0 < goodSession.playState.positionTicks ∧
    jellyfin_get_sessions (Except.ok [goodSession])
      = Except.error PyError.typeError := by
  refine ⟨rfl, by decide, rfl⟩

/-- C5 (amended): the Emby adapter includes a fetched session exactly
when it has a currently-playing item, a nonzero playback position, and
its record parses.  The Jellyfin adapter never includes any session: a
successful return is always the empty list, and any fetched session
with a currently-playing item makes the whole call raise TypeError
(its StreamInfo construction passes keywords the imported dataclass
does not declare), so the claimed position filter never comes into
play there. -/
theorem C5_inclusion_conditions :
    (∀ s : Session,
      emby_session_included s =
        (s.nowPlaying.isSome && decide (0 < s.playState.positionTicks)
          && (parse_session_info s).isSome)) ∧
    (∀ (data : List Session) (l : List StreamInfo),
      jellyfin_get_sessions (Except.ok data) = Except.ok l → l = []) ∧
    (∀ (data : List Session) (s : Session),
      s ∈ data → s.nowPlaying.isSome = true →
      jellyfin_get_sessions (Except.ok data) = Except.error PyError.typeError) := by
  refine ⟨?_, ?_, ?_⟩
  · intro s
    unfold emby_session_included emby_get_sessions embyActive
    rcases hnp : s.nowPlaying with _ | np
    · simp [hnp]
    · by_cases hpos : 0 < s.playState.positionTicks
      · rcases hp : parse_session_info s with _ | info <;>
          simp [hnp, hpos, hp, List.filterMap_cons]
      · simp [hnp, hpos, List.filterMap_cons]
  · intro data l h
    unfold jellyfin_get_sessions at h
    dsimp only at h
    split_ifs at h with hany
    exact (Except.ok.inj h).symm
  · intro data s hmem hnp
    unfold jellyfin_get_sessions
    dsimp only
    rw [if_pos (List.any_eq_true.mpr ⟨s, hmem, hnp⟩)]

/-- C5 witness: the Emby inclusion equation at the sample movie session,
the empty-success fact at an empty Jellyfin listing, and the raising
behavior at a listing holding the sample playing session. -/
theorem C5_inclusion_conditions_witness :
    emby_session_included goodSession
      = (goodSession.nowPlaying.isSome
          && decide (0 < goodSession.playState.positionTicks)
          && (parse_session_info goodSession).isSome) ∧
    ([] : List StreamInfo) = [] ∧
    jellyfin_get_sessions (Except.ok [goodSession])
      = Except.error PyError.typeError :=
  ⟨C5_inclusion_conditions.1 goodSession,
   C5_inclusion_conditions.2.1 [] [] rfl,
   C5_inclusion_conditions.2.2 [goodSession] goodSession (by simp) rfl⟩

/-- C6 counterexample: a session whose nonzero position equals its
nonzero runtime renders progress normally but has no ETA at all — the
remaining duration is not rendered. -/
theorem C6_counterexample :
    tieSession.playState.positionTicks ≠ 0 ∧
    (tieSession.nowPlaying.getD {}).runTimeTicks ≠ 0 ∧
    ((parse_session_info tieSession).map fun i => (i.progress, i.eta))
      = some ("0:00:01/0:00:01", none) := by
  refine ⟨by decide, by decide, by decide⟩

/-- C6 (amended): for a parsed session with nonzero position ticks p and
nonzero runtime ticks r, ticks are converted to whole seconds by integer
division by 10,000,000, progress is the two duration strings joined by
a slash, and ETA is the remaining duration exactly when p is less than r
and absent otherwise; if either p or r is zero or unknown, progress is
the literal string "Unknown" and ETA is absent. -/
theorem C6_progress_eta (s : Session) (info : StreamInfo)
    (h : parse_session_info s = some info) :
    (s.playState.positionTicks ≠ 0 ∧ (s.nowPlaying.getD {}).runTimeTicks ≠ 0 →
      info.progress
        = timedeltaStr (s.playState.positionTicks / 10000000) ++ "/"
          ++ timedeltaStr ((s.nowPlaying.getD {}).runTimeTicks / 10000000) ∧
      info.eta
        = if s.playState.positionTicks < (s.nowPlaying.getD {}).runTimeTicks
          then some (timedeltaStr
            (((s.nowPlaying.getD {}).runTimeTicks - s.playState.positionTicks)
              / 10000000))
          else none) ∧
    (s.playState.positionTicks = 0 ∨ (s.nowPlaying.getD {}).runTimeTicks = 0 →
      info.progress = "Unknown" ∧ info.eta = none) := by
  unfold parse_session_info at h
  dsimp only at h
  split at h
  · exact absurd h (by simp)
  · have hs := Option.some.inj h
    subst hs
    refine ⟨?_, ?_⟩
    · rintro ⟨hp, hr⟩
      exact ⟨by simp only [if_pos (And.intro hp hr)],
             by simp only [if_pos (And.intro hp hr)]⟩
    · intro hor
      have hne : ¬(s.playState.positionTicks ≠ 0
          ∧ (s.nowPlaying.getD {}).runTimeTicks ≠ 0) := by
        tauto
      exact ⟨by simp only [if_neg hne], by simp only [if_neg hne]⟩

/-- C6 witness: the sample movie session (600 s of 1200 s) parses to
progress "0:10:00/0:20:00" with ETA "0:10:00". -/
theorem C6_progress_eta_witness :
    goodSession.playState.positionTicks ≠ 0 ∧
    (goodSession.nowPlaying.getD {}).runTimeTicks ≠ 0 ∧
    ((parse_session_info goodSession).map fun i => (i.progress, i.eta))
      = some ("0:10:00/0:20:00", some "0:10:00") := by
  refine ⟨by decide, by decide, ?_⟩
  rcases hp : parse_session_info goodSession with _ | info
  · exact absurd hp (by decide)
  · have h := (C6_progress_eta goodSession info hp).1 ⟨by decide, by decide⟩
    show some (info.progress, info.eta) = _
    rw [h.1, h.2]
    decide

/-- C4 counterexample: changing only the item count of a movie library
(1 to 2) changes the channel name it is matched under, while toggling
the isKids flag of a music library does not change it at all. -/
theorem C4_counterexample :
    channelName moviesLibOne ≠ channelName moviesLibTwo ∧
    channelName musicPlainLib = channelName musicKidsLib := by
  constructor
  · decide
  · decide

/-- C4 (amended): the identity under which a library's voice channel is
matched is its full rendered name, count included.  Changing only the
item count changes that key exactly when it changes the abbreviated
count rendering (so such a change is a delete-and-create, not an update
of the same channel); changing the kind among movies/tvshows/music
always changes the key while the rendered names stay within the
100-character cap; and changing a flag need not change the key (isKids
on a music library leaves it untouched). -/
theorem C4_key_is_rendered_name :
    (∀ (l : LibStats) (c1 c2 : Nat),
      (rawChannelName { l with count := c1 }).length ≤ 100 →
      (rawChannelName { l with count := c2 }).length ≤ 100 →
      (channelName { l with count := c1 } = channelName { l with count := c2 } ↔
        format_number c1 = format_number c2)) ∧
    (∀ (l : LibStats) (k1 k2 : String),
      k1 ∈ (["movies", "tvshows", "music"] : List String) →
      k2 ∈ (["movies", "tvshows", "music"] : List String) →
      k1 ≠ k2 →
      (rawChannelName { l with typ := k1 }).length ≤ 100 →
      (rawChannelName { l with typ := k2 }).length ≤ 100 →
      channelName { l with typ := k1 } ≠ channelName { l with typ := k2 }) ∧
    channelName musicPlainLib = channelName musicKidsLib := by
  refine ⟨?_, ?_, by decide⟩
  · intro l c1 c2 h1 h2
    unfold channelName
    rw [truncate100_eq_self h1, truncate100_eq_self h2]
    rw [rawChannelName_set_count, rawChannelName_set_count]
    constructor
    · intro h
      have h := str_append_left_cancel h
      have h := str_append_left_cancel h
      have h := str_append_left_cancel h
      exact str_append_left_cancel h
    · intro h
      rw [h]
  · intro l k1 k2 hk1 hk2 hne h1 h2 heq
    unfold channelName at heq
    rw [truncate100_eq_self h1, truncate100_eq_self h2] at heq
    rw [rawChannelName_set_typ, rawChannelName_set_typ] at heq
    have hE : libraryEmoji { l with typ := k1 } = libraryEmoji { l with typ := k2 } :=
      str_append_right_cancel heq
    simp only [List.mem_cons, List.not_mem_nil, or_false] at hk1 hk2
    rcases hk1 with rfl | rfl | rfl <;> rcases hk2 with rfl | rfl | rfl <;>
      first
      | exact hne rfl
      | (cases h4 : l.is4k <;> cases hkid : l.isKids <;> cases hani : l.isAnime <;>
          simp [libraryEmoji, h4, hkid, hani] at hE)

/-- C4 witness: the count-key equivalence applied at counts 1 and 2 of a
concrete movie library, and the kind-difference applied to movies versus
music. -/
theorem C4_key_is_rendered_name_witness :
    (channelName { moviesLibOne with count := 1 }
        = channelName { moviesLibOne with count := 2 } ↔
      format_number 1 = format_number 2) ∧
    channelName { moviesLibOne with typ := "movies" }
      ≠ channelName { moviesLibOne with typ := "music" } :=
  ⟨C4_key_is_rendered_name.1 moviesLibOne 1 2 (by decide) (by decide),
   C4_key_is_rendered_name.2.1 moviesLibOne "movies" "music" (by decide) (by decide)
     (by decide) (by decide) (by decide)⟩

/-- C1 counterexample: against an already-converged observed state (no
library channels desired or observed, no recent items, both message
handles held) one reconciliation cycle still issues an operation — the
status message is edited unconditionally. -/
theorem C1_counterexample :
    reconcile_cycle_ops true true [] [] 0 true ≠ [] := by
  decide

/-- C1 (amended): with the observed voice-channel set already exactly the
desired set of rendered names, one cycle issues zero channel creates and
deletes; the message resources, however, are not reconciled by
comparison — the status message is edited unconditionally whenever its
handle is held, and the recently-added message is touched whenever any
recent items exist. -/
theorem C1_converged_channels_zero_ops :
    (∀ (stats : List LibStats) (observed : List String),
      (∀ n, n ∈ observed ↔ n ∈ stats.map channelName) →
      update_library_stats_ops stats observed = []) ∧
    (∀ foundInHistory : Bool,
      update_status_ops true foundInHistory = [ChatOp.editStatusMessage]) ∧
    (∀ (numItems : Nat) (recentHeld : Bool), numItems ≠ 0 →
      update_recently_added_ops numItems recentHeld ≠ []) := by
  refine ⟨?_, fun _ => rfl, ?_⟩
  · intro stats observed h
    unfold update_library_stats_ops
    rw [List.append_eq_nil]
    constructor
    · rw [List.filterMap_eq_nil_iff]
      intro l hl
      rw [if_pos ((h (channelName l)).mpr (List.mem_map_of_mem channelName hl))]
    · rw [List.filterMap_eq_nil_iff]
      intro c hc
      rw [if_pos ((h c).mp hc)]
  · intro numItems recentHeld hn
    unfold update_recently_added_ops
    rw [if_neg hn]
    split_ifs <;> simp

/-- C1 witness: a converged single-channel category yields no channel
operations, while the held status message is still edited and a nonempty
recently-added list still touches its message. -/
theorem C1_converged_channels_zero_ops_witness :
    update_library_stats_ops [demoLib] [channelName demoLib] = [] ∧
    update_status_ops true false = [ChatOp.editStatusMessage] ∧
    update_recently_added_ops 3 true ≠ [] :=
  ⟨C1_converged_channels_zero_ops.1 [demoLib] [channelName demoLib] (fun _ => Iff.rfl),
   C1_converged_channels_zero_ops.2.1 false,
   C1_converged_channels_zero_ops.2.2 3 true (by decide)⟩
